import Mathlib

/-!
Shallow embedding of the autonomous trading-decision engine of
`backend/` (technical analyst, signal combiner, risk manager, and the
trading-cycle controller of `routes/agent.py`), with theorems checking the
design specification's claims against it.

Numeric values (Python floats) are modelled as exact rationals; Python's
`round(x, d)` is modelled by round-half-to-even at `d` decimal places and
`int(x)` by truncation toward zero.
-/

/-- Python `round` to an integer: round half to even (banker's rounding). -/
def halfEvenRound (q : ℚ) : ℤ :=
  let n := ⌊q⌋
  let f := q - n
  if f < 1/2 then n else if 1/2 < f then n + 1 else if n % 2 = 0 then n else n + 1

/-- Python `round(q, d)`: round to `d` decimal places. -/
def roundTo (d : ℕ) (q : ℚ) : ℚ := (halfEvenRound (q * 10 ^ d) : ℚ) / 10 ^ d

/-- Python `int(q)` on a float value: truncation toward zero. -/
def pyTrunc (q : ℚ) : ℤ := if q < 0 then ⌈q⌉ else ⌊q⌋

/-!
Technical analyst (`agents/technical_analyst.py`,
`TechnicalAnalystAgent.analyze_technical_indicators`).

A candle is modelled by the fields the analyzer reads: `date` (sort key),
`close` and `volume`. The pandas indicator pipeline is embedded per series
position; a pandas `NaN` at the final index (unfilled rolling window, or
`0/0` in the RSI ratio) is modelled as `Option.none`.
-/

structure Candle where
  date : ℕ
  close : ℚ
  volume : ℚ
deriving DecidableEq

/-- Ascending insertion used by `sortByDate`. -/
def insertByDate (c : Candle) : List Candle → List Candle
  | [] => [c]
  | d :: ds => if c.date ≤ d.date then c :: d :: ds else d :: insertByDate c ds

/-- The `df.sort_values(date)` step: sort candles ascending by date. -/
def sortByDate (l : List Candle) : List Candle := l.foldr insertByDate []

/-- The value of a series at its final index (`iloc[-1]`); 0 for an empty series. -/
def lastVal (l : List ℚ) : ℚ := l.getLast?.getD 0

/-- The last `k` entries of a series (all of it when shorter than `k`). -/
def lastWindow (k : ℕ) (l : List ℚ) : List ℚ := l.drop (l.length - k)

/-- `rolling(k).mean()` at the final index: `none` until the window fills. -/
def lastMean (k : ℕ) (l : List ℚ) : Option ℚ :=
  if l.length < k then none else some ((lastWindow k l).sum / k)

/-- `series.diff()` without its leading `NaN`: consecutive differences. -/
def deltas (l : List ℚ) : List ℚ := l.tail.zipWith (fun x y => x - y) l

/-- Per-bar gains, `delta.where(delta > 0, 0.0)`. The leading `NaN` of
`diff()` fails the `> 0` test and is replaced by `0`, hence the `0 ::`. -/
def gains (l : List ℚ) : List ℚ := 0 :: (deltas l).map (fun d => if d > 0 then d else 0)

/-- Per-bar losses, `(-delta).where(delta < 0, 0.0)`, leading `NaN` replaced by `0`. -/
def losses (l : List ℚ) : List ℚ := 0 :: (deltas l).map (fun d => if d < 0 then -d else 0)

/-- RSI at the final index. `avg_loss = 0` makes `rs = avg_gain/avg_loss` the
float `inf` (RSI exactly 100) when `avg_gain > 0`, and `NaN` (modelled `none`)
when `avg_gain = 0`. -/
def rsiLast (prices : List ℚ) : Option ℚ :=
  match lastMean 14 (gains prices), lastMean 14 (losses prices) with
  | some g, some lo =>
      if lo = 0 then (if g = 0 then none else some 100)
      else some (100 - 100 / (1 + g / lo))
  | _, _ => none

/-- Smoothing factor of `ewm(span=n, adjust=False)`. -/
def ewmAlpha (span : ℕ) : ℚ := 2 / (span + 1)

/-- Final value of `ewm(span, adjust=False).mean()`. -/
def ewmLast (a : ℚ) : List ℚ → ℚ
  | [] => 0
  | p :: ps => ps.foldl (fun e x => a * x + (1 - a) * e) p

/-- The whole `ewm(span, adjust=False).mean()` series. -/
def ewmSeries (a : ℚ) : List ℚ → List ℚ
  | [] => []
  | p :: ps => List.scanl (fun e x => a * x + (1 - a) * e) p ps

/-- MACD line (fast EMA − slow EMA) as a series. -/
def macdSeries (prices : List ℚ) : List ℚ :=
  List.zipWith (fun x y => x - y) (ewmSeries (ewmAlpha 12) prices) (ewmSeries (ewmAlpha 26) prices)

/-- MACD line at the final index. -/
def macdLast (prices : List ℚ) : ℚ := lastVal (macdSeries prices)

/-- MACD signal line (EMA-9 of the MACD line) at the final index. -/
def macdSignalLast (prices : List ℚ) : ℚ := ewmLast (ewmAlpha 9) (macdSeries prices)

/-- Sample variance (pandas `std` uses `ddof=1`; we keep the variance and
compare squares instead of taking the square root). -/
def sampleVar (l : List ℚ) : ℚ :=
  let m := l.sum / l.length
  (l.map (fun x => (x - m) ^ 2)).sum / ((l.length : ℚ) - 1)

/-- Bollinger mid band and rolling variance at the final index (window 20). -/
def bollLast (prices : List ℚ) : Option (ℚ × ℚ) :=
  if prices.length < 20 then none
  else some ((lastWindow 20 prices).sum / 20, sampleVar (lastWindow 20 prices))

/-- Moving-average score contribution (skipped while SMA20/SMA50 are `NaN`). -/
def maTerm (prices : List ℚ) : ℚ :=
  match lastMean 20 prices, lastMean 50 prices with
  | some s20, some s50 =>
      if lastVal prices > s20 ∧ s20 > s50 then 1
      else if lastVal prices < s20 ∧ s20 < s50 then -1
      else 0
  | _, _ => 0

/-- RSI score contribution: +1.5 oversold (< 30), −1.5 overbought (> 70). -/
def rsiTerm (prices : List ℚ) : ℚ :=
  match rsiLast prices with
  | some r => if r < 30 then 1.5 else if r > 70 then -1.5 else 0
  | none => 0

/-- MACD score contribution. -/
def macdTerm (prices : List ℚ) : ℚ :=
  if macdLast prices > macdSignalLast prices ∧ macdLast prices > 0 then 1
  else if macdLast prices < macdSignalLast prices ∧ macdLast prices < 0 then -1
  else 0

/-- Bollinger-band score contribution. `price < mid − 2σ` is expressed by
squaring (`mid − price > 0 ∧ (mid − price)² > 4·variance`), which is exactly
equivalent and avoids the square root; mirrored for the upper band. -/
def bbTerm (prices : List ℚ) : ℚ :=
  match bollLast prices with
  | some (m, v) =>
      if lastVal prices < m ∧ (m - lastVal prices) ^ 2 > 4 * v then 1
      else if lastVal prices > m ∧ (lastVal prices - m) ^ 2 > 4 * v then -1
      else 0
  | none => 0

/-- Volume score contribution: +0.5 when current volume > 1.5 × trailing-20 mean. -/
def volTerm (volumes : List ℚ) : ℚ :=
  let w := lastWindow 20 volumes
  if lastVal volumes > w.sum / w.length * 1.5 then 0.5 else 0

/-- The accumulated technical score over the date-sorted candles. -/
def techScore (candles : List Candle) : ℚ :=
  let sorted := sortByDate candles
  let prices := sorted.map (fun c => c.close)
  let volumes := sorted.map (fun c => c.volume)
  maTerm prices + rsiTerm prices + macdTerm prices + bbTerm prices + volTerm volumes

/-- Score-to-signal mapping with its per-branch confidence (the `HOLD`
branch of the source sets confidence to 0.5, not `min(|score|/5, 1)`). -/
def techSignalOf (s : ℚ) : String × ℚ :=
  if s > 2 then ("STRONG_BUY", min (|s| / 5) 1)
  else if s > 0.5 then ("BUY", min (|s| / 5) 1)
  else if s < -2 then ("STRONG_SELL", min (|s| / 5) 1)
  else if s < -0.5 then ("SELL", min (|s| / 5) 1)
  else ("HOLD", 0.5)

/-- Rationale fragments joined into the reasoning text (the interpolated
numeric RSI value of the source message is omitted). -/
def techMessages (prices volumes : List ℚ) : List String :=
  (if maTerm prices = 1 then ["Bullish: Price above SMA20 and SMA50"]
   else if maTerm prices = -1 then ["Bearish: Price below SMA20 and SMA50"] else []) ++
  (if rsiTerm prices = 1.5 then ["Oversold: RSI (< 30)"]
   else if rsiTerm prices = -1.5 then ["Overbought: RSI (> 70)"] else []) ++
  (if macdTerm prices = 1 then ["Bullish: MACD above signal line"]
   else if macdTerm prices = -1 then ["Bearish: MACD below signal line"] else []) ++
  (if bbTerm prices = 1 then ["Oversold: Price below lower Bollinger Band"]
   else if bbTerm prices = -1 then ["Overbought: Price above upper Bollinger Band"] else []) ++
  (if volTerm volumes = 0.5 then ["High volume: Potential breakout"] else [])

/-- Separator of the joined reasoning fragments. -/
def sepSemicolon : String := "; "

structure IndicatorSnapshot where
  current_price : ℚ
  sma20 : Option ℚ
  sma50 : Option ℚ
  rsi : Option ℚ
  macd : Option ℚ
  volume_ratio : Option ℚ
deriving DecidableEq

structure TechResult where
  symbol : String
  signal : String
  confidence : ℚ
  score : Option ℚ
  reasoning : String
  indicators : Option IndicatorSnapshot
deriving DecidableEq

/-- `TechnicalAnalystAgent.analyze_technical_indicators`: fewer than 30
candles short-circuits to HOLD / confidence 0 (the returned dict then has no
score and empty indicators, modelled by `none`); otherwise the indicator
score is accumulated over the date-sorted candles and mapped to a signal. -/
def analyze_technical_indicators (symbol : String) (candles : List Candle) : TechResult :=
  if candles.length < 30 then
    { symbol := symbol, signal := "HOLD", confidence := 0, score := none,
      reasoning := "Insufficient data for technical analysis (< 30 periods)",
      indicators := none }
  else
    let sorted := sortByDate candles
    let prices := sorted.map (fun c => c.close)
    let volumes := sorted.map (fun c => c.volume)
    let s := techScore candles
    let sig := techSignalOf s
    let w := lastWindow 20 volumes
    { symbol := symbol, signal := sig.1, confidence := roundTo 2 sig.2,
      score := some (roundTo 2 s),
      reasoning := String.intercalate sepSemicolon (techMessages prices volumes),
      indicators := some
        { current_price := roundTo 2 (lastVal prices),
          sma20 := (lastMean 20 prices).map (roundTo 2),
          sma50 := (lastMean 50 prices).map (roundTo 2),
          rsi := (rsiLast prices).map (roundTo 2),
          macd := some (roundTo 3 (macdLast prices)),
          volume_ratio := if w.sum / w.length > 0 then some (roundTo 2 (lastVal volumes / (w.sum / w.length))) else none } }

/-!
Signal combiner (`agents/crew_orchestrator.py`,
`FinanceCrewOrchestrator._combine_signals`). The combiner reads only the
`signal` and `confidence` fields of each input; its free-text `reasoning`
output (display only) is not modelled.
-/

structure FundResult where
  signal : String
  confidence : ℚ
deriving DecidableEq

/-- The `signal_scores` mapping of the combiner; unrecognized signals
(and `NO_TRADE`) score 0. -/
def signal_scores (s : String) : ℚ :=
  if s = "STRONG_BUY" then 2
  else if s = "BUY" then 1
  else if s = "WEAK_BUY" then 0.5
  else if s = "HOLD" then 0
  else if s = "WEAK_SELL" then -0.5
  else if s = "SELL" then -1
  else if s = "STRONG_SELL" then -2
  else 0

structure CombinedResult where
  final_signal : String
  final_confidence : ℚ
  combined_score : ℚ
  technical_weight : ℚ
  fundamental_weight : ℚ
  agent_agreement : String
deriving DecidableEq

/-- `FinanceCrewOrchestrator._combine_signals`: confidence-weighted fusion
(technical 0.6, fundamental 0.4) with threshold mapping and agreement bands.
The thresholds act on the exact weighted sum; the returned score and
confidence fields are that sum rounded to 2 decimals. -/
def combine_signals (technical : TechResult) (fundamental : FundResult) : CombinedResult :=
  let tech_score := signal_scores technical.signal
  let fund_score := signal_scores fundamental.signal
  let tech_confidence := technical.confidence
  let fund_confidence := fundamental.confidence
  let tech_weight : ℚ := 0.6
  let fund_weight : ℚ := 0.4
  let combined_score := tech_score * tech_confidence * tech_weight + fund_score * fund_confidence * fund_weight
  let combined_confidence := tech_confidence * tech_weight + fund_confidence * fund_weight
  { final_signal :=
      if combined_score > 1.5 then "STRONG_BUY"
      else if combined_score > 0.5 then "BUY"
      else if combined_score > 0.2 then "WEAK_BUY"
      else if combined_score < -1.5 then "STRONG_SELL"
      else if combined_score < -0.5 then "SELL"
      else if combined_score < -0.2 then "WEAK_SELL"
      else "HOLD",
    final_confidence := roundTo 2 combined_confidence,
    combined_score := roundTo 2 combined_score,
    technical_weight := tech_weight,
    fundamental_weight := fund_weight,
    agent_agreement :=
      if |tech_score - fund_score| < 0.5 then "HIGH"
      else if |tech_score - fund_score| < 1.5 then "MODERATE"
      else "LOW" }

/-!
Risk manager (`agents/risk_manager.py`, `RiskManagementAgent`):
`calculate_position_size` and `validate_trade`.
-/

structure SizingRec where
  recommended_shares : ℤ
  position_value : ℚ
  position_pct : ℚ
  risk_amount : ℚ
  risk_per_share : ℚ
  entry_price : ℚ
  stop_loss : ℚ
deriving DecidableEq

/-- Error message of the invalid-input branch of `calculate_position_size`. -/
def invalidSizingMsg : String := "Invalid portfolio value or entry price"

/-- Result of `calculate_position_size`: the ERROR dict (which carries
`recommended_shares = 0`) or the sizing record. -/
inductive SizeResult where
  | sizeError (message : String)
  | sized (r : SizingRec)
deriving DecidableEq

/-- The `recommended_shares` of either outcome (0 in the ERROR dict). -/
def SizeResult.recommended_shares : SizeResult → ℤ
  | .sizeError _ => 0
  | .sized r => r.recommended_shares

/-- `RiskManagementAgent.calculate_position_size`. `int(...)` truncates
toward zero; the `risk_per_share = 0` sub-case (stop equal to entry) is
explicitly mapped to 0 shares by the source. -/
def calculate_position_size (portfolio_value risk_pct entry_price stop_loss : ℚ) : SizeResult :=
  if portfolio_value ≤ 0 ∨ entry_price ≤ 0 then
    .sizeError invalidSizingMsg
  else
    let risk_amount := portfolio_value * risk_pct
    let risk_per_share := if stop_loss > 0 then |entry_price - stop_loss| else entry_price * 0.05
    let recommended_shares :=
      if stop_loss > 0 ∧ ¬risk_per_share > 0 then 0
      else pyTrunc (risk_amount / risk_per_share)
    let position_value := (recommended_shares : ℚ) * entry_price
    let position_pct := if portfolio_value > 0 then position_value / portfolio_value * 100 else 0
    .sized
      { recommended_shares := recommended_shares,
        position_value := roundTo 2 position_value,
        position_pct := roundTo 2 position_pct,
        risk_amount := roundTo 2 risk_amount,
        risk_per_share := roundTo 2 risk_per_share,
        entry_price := entry_price,
        stop_loss := stop_loss }

/-- The two possible validation violations (the source stores formatted
message strings; only the kind is modelled). -/
inductive Violation where
  | positionTooLarge
  | exceedsPortfolio
deriving DecidableEq

/-- The single possible validation warning (low confidence). -/
inductive Warning where
  | lowConfidence
deriving DecidableEq

structure TradeProposal where
  symbol : String
  signal : String
  quantity : ℚ
  entry_price : ℚ
  portfolio_value : ℚ
  confidence : ℚ
  max_position_pct : ℚ
  min_confidence : ℚ
deriving DecidableEq

structure ValidationRec where
  approved : Bool
  status : String
  trade_value : ℚ
  position_pct : ℚ
  violations : List Violation
  warnings : List Warning
deriving DecidableEq

/-- Result of `validate_trade`: the early HOLD return (whose dict has no
violations/warnings keys) or the full validation record. -/
inductive ValidateResult where
  | noTrade
  | checked (r : ValidationRec)
deriving DecidableEq

def ValidateResult.approved : ValidateResult → Bool
  | .noTrade => false
  | .checked r => r.approved

def ValidateResult.status : ValidateResult → String
  | .noTrade => "NO_TRADE"
  | .checked r => r.status

/-- `RiskManagementAgent.validate_trade`. Note the portfolio-limit check is
guarded by `portfolio_value > 0` in the source, and `position_pct` is 0 when
`portfolio_value ≤ 0`. -/
def validate_trade (p : TradeProposal) : ValidateResult :=
  if p.signal = "HOLD" then .noTrade
  else
    let trade_value := p.quantity * p.entry_price
    let position_pct := if p.portfolio_value > 0 then trade_value / p.portfolio_value * 100 else 0
    let violations :=
      (if position_pct > p.max_position_pct then [Violation.positionTooLarge] else []) ++
      (if p.portfolio_value > 0 ∧ trade_value > p.portfolio_value then [Violation.exceedsPortfolio] else [])
    let warnings := if p.confidence < p.min_confidence then [Warning.lowConfidence] else []
    if violations ≠ [] then
      .checked { approved := false, status := "REJECTED", trade_value := roundTo 2 trade_value,
                 position_pct := roundTo 2 position_pct, violations := violations, warnings := warnings }
    else if warnings ≠ [] then
      .checked { approved := true, status := "APPROVED_WITH_WARNINGS", trade_value := roundTo 2 trade_value,
                 position_pct := roundTo 2 position_pct, violations := violations, warnings := warnings }
    else
      .checked { approved := true, status := "APPROVED", trade_value := roundTo 2 trade_value,
                 position_pct := roundTo 2 position_pct, violations := violations, warnings := warnings }

/-!
Trading cycle controller (`routes/agent.py`). Statuses, modes and actions
are the string literals of the source. Timestamps (`datetime`) are modelled
as integers; `today_start` abstracts the midnight of the current run time.
Collaborator calls are modelled by `CycleEnv`: a `none` recommendation or
quote models the exception caught by the per-symbol `try`, `accountValue`
models the broker account fetch, and `orderOutcome` the (decrypt + place
order) attempt of `_execute_trade`.
-/

structure TradeRec where
  symbol : String
  action : String
  quantity : ℤ
  price : ℚ
  total : ℚ
  status : String
  mode : String
  reasoning : String
  created_at : ℤ
  executed_at : Option ℤ
deriving DecidableEq

structure AgentConfigRec where
  enabled : Bool
  mode : String
  max_trade_pct : ℚ
  max_position_pct : ℚ
  daily_loss_limit_pct : ℚ
  confirm_above_usd : ℚ
  symbol_whitelist : List String
deriving DecidableEq

/-- The fields of a `get_recommendation` payload read by the cycle. -/
structure RecOut where
  signal : String
  confidence : ℚ
  reasoning : String
deriving DecidableEq

/-- Collaborators of one cycle, read as a stable snapshot. -/
structure CycleEnv where
  recommendation : String → Option RecOut
  quote : String → Option ℚ
  accountValue : Option ℚ
  orderOutcome : String → Except String Unit

/-- `_execute_trade`: advisory never executes; paper without a broker is
simulated locally; otherwise the single adapter attempt ends in `executed`
or `failed`. The second component counts adapter order attempts. -/
def execute_trade (mode : String) (hasBroker : Bool) (orderOutcome : Except String Unit)
    (now : ℤ) (t : TradeRec) : TradeRec × ℕ :=
  if mode = "advisory" then (t, 0)
  else if mode = "paper" ∧ ¬hasBroker then
    ({ t with status := "executed", executed_at := some now }, 0)
  else if ¬hasBroker then
    ({ t with status := "failed", reasoning := t.reasoning ++ " | No broker connected" }, 0)
  else
    match orderOutcome with
    | .ok _ => ({ t with status := "executed", executed_at := some now }, 1)
    | .error e => ({ t with status := "failed", reasoning := t.reasoning ++ " | Execution error: " ++ e }, 1)

/-- The watchlist filtered by the whitelist (empty whitelist = no filter). -/
def cycleSymbols (config : AgentConfigRec) (watchlist : List String) : List String :=
  if config.symbol_whitelist = [] then watchlist
  else watchlist.filter (fun s => config.symbol_whitelist.contains s)

/-- Portfolio value resolution: default 10000 paper portfolio, overwritten
by a successful broker account fetch outside advisory mode. -/
def resolve_portfolio_value (config : AgentConfigRec) (hasBroker : Bool) (env : CycleEnv) : ℚ :=
  if hasBroker ∧ config.mode ≠ "advisory" then
    match env.accountValue with
    | some v => v
    | none => 10000
  else 10000

/-- Realized P&L of today's executed, non-advisory trades:
`price × quantity`, positive for sells, negative for buys. -/
def daily_pnl (db : List TradeRec) (today_start : ℤ) : ℚ :=
  ((db.filter (fun t =>
      decide (today_start ≤ t.created_at) && decide (t.status = "executed") && decide (t.mode ≠ "advisory"))).map
    (fun t => t.price * (t.quantity : ℚ) * (if t.action = "sell" then 1 else -1))).sum

/-- The per-symbol body of the cycle loop: signal screen, quote screen,
sizing from `max_trade_pct`, and choice of the initial trade status. `none`
is a skipped symbol (including a caught per-symbol exception). -/
def decide_symbol (config : AgentConfigRec) (portfolio_value : ℚ) (env : CycleEnv)
    (now : ℤ) (symbol : String) : Option TradeRec :=
  match env.recommendation symbol with
  | none => none
  | some r =>
    if r.signal = "HOLD" ∨ r.confidence < 0.3 then none
    else
      match env.quote symbol with
      | none => none
      | some current_price =>
        if current_price ≤ 0 then none
        else
          let max_trade_value := portfolio_value * (config.max_trade_pct / 100)
          let quantity := pyTrunc (max_trade_value / current_price)
          if quantity < 1 then none
          else
            let trade_value := roundTo 2 ((quantity : ℚ) * current_price)
            let status :=
              if config.mode = "advisory" then "advisory"
              else if trade_value > config.confirm_above_usd then "pending"
              else "ready"
            some { symbol := symbol,
                   action := if r.signal = "BUY" then "buy" else "sell",
                   quantity := quantity, price := current_price, total := trade_value,
                   status := status, mode := config.mode, reasoning := r.reasoning,
                   created_at := now, executed_at := none }

/-- Persist the decision list and execute the `ready` ones immediately;
returns the final trade rows and the executed count. -/
def persist_execute (config : AgentConfigRec) (hasBroker : Bool) (env : CycleEnv) (now : ℤ) :
    List TradeRec → List TradeRec × ℕ
  | [] => ([], 0)
  | d :: ds =>
    let rest := persist_execute config hasBroker env now ds
    if d.status = "ready" then
      ((execute_trade config.mode hasBroker (env.orderOutcome d.symbol) now d).1 :: rest.1, rest.2 + 1)
    else (d :: rest.1, rest.2)

/-- Outcome of one cycle: the returned status plus the trades the cycle
persisted (in their final state). -/
structure CycleResult where
  status : String
  symbols_analyzed : ℕ
  decisions : ℕ
  executed : ℕ
  newTrades : List TradeRec

/-- `_run_agent_cycle`: disabled and no-symbols no-ops, portfolio value
resolution, the once-per-cycle daily-loss kill-switch, then the per-symbol
loop and immediate execution of `ready` trades. -/
def run_agent_cycle (config : AgentConfigRec) (watchlist : List String) (db : List TradeRec)
    (hasBroker : Bool) (env : CycleEnv) (now today_start : ℤ) : CycleResult :=
  if ¬config.enabled then
    { status := "disabled", symbols_analyzed := 0, decisions := 0, executed := 0, newTrades := [] }
  else
    let symbols := cycleSymbols config watchlist
    if symbols = [] then
      { status := "no_symbols", symbols_analyzed := 0, decisions := 0, executed := 0, newTrades := [] }
    else
      let portfolio_value := resolve_portfolio_value config hasBroker env
      let loss_limit := portfolio_value * (config.daily_loss_limit_pct / 100)
      if daily_pnl db today_start < -loss_limit then
        { status := "killed", symbols_analyzed := 0, decisions := 0, executed := 0, newTrades := [] }
      else
        let ds := symbols.filterMap (decide_symbol config portfolio_value env now)
        let fin := persist_execute config hasBroker env now ds
        { status := "completed", symbols_analyzed := symbols.length, decisions := ds.length,
          executed := fin.2, newTrades := fin.1 }

/-- Outcome of a `confirm`/`cancel` route call on one stored trade: the
trade row after the call, the invalid-state error if one was raised, and the
number of adapter order attempts made. -/
structure OpResult where
  trade : TradeRec
  error : Option String
  orderCalls : ℕ
deriving DecidableEq

/-- Detail text of the invalid-state error of the confirm route. -/
def confirmErrMsg (status : String) : String := "Status is " ++ status ++ ", not pending"

/-- Detail text of the invalid-state error of the cancel route. -/
def cancelErrMsg (status : String) : String := "Cannot cancel status " ++ status

/-- `confirm_trade` route: only a `pending` trade may be confirmed; it is
set to `ready` and executed at once. Any other status raises an
invalid-state error naming the current status and changes nothing. -/
def confirm_trade (config : AgentConfigRec) (hasBroker : Bool) (orderOutcome : Except String Unit)
    (now : ℤ) (t : TradeRec) : OpResult :=
  if t.status ≠ "pending" then
    { trade := t, error := some (confirmErrMsg t.status), orderCalls := 0 }
  else
    let res := execute_trade config.mode hasBroker orderOutcome now { t with status := "ready" }
    { trade := res.1, error := none, orderCalls := res.2 }

/-- `cancel_trade` route: only `pending`, `ready` or `advisory` trades may
be cancelled; any other status raises an invalid-state error naming the
current status and changes nothing. -/
def cancel_trade (t : TradeRec) : OpResult :=
  if t.status = "pending" ∨ t.status = "ready" ∨ t.status = "advisory" then
    { trade := { t with status := "cancelled" }, error := none, orderCalls := 0 }
  else
    { trade := t, error := some (cancelErrMsg t.status), orderCalls := 0 }

/-!
Sample inputs used by concrete witnesses and counterexamples.
-/

def sampleSymbol : String := "AAPL"

def modePaper : String := "paper"

/-- An already-executed (terminal) trade row. -/
def tradeExecuted : TradeRec :=
  { symbol := "AAPL", action := "buy", quantity := 1, price := 10, total := 10,
    status := "executed", mode := "paper", reasoning := "", created_at := 0,
    executed_at := some 0 }

/-- The default moderate paper configuration. -/
def cfgModerate : AgentConfigRec :=
  { enabled := true, mode := "paper", max_trade_pct := 10, max_position_pct := 20,
    daily_loss_limit_pct := 5, confirm_above_usd := 500, symbol_whitelist := [] }

/-- C6: with fewer than 30 bars the technical analyzer returns HOLD,
confidence 0 and the non-empty insufficient-data rationale, and (being a
total function on this branch) never an error. -/
theorem tech_insufficient_data_holds (symbol : String) (candles : List Candle)
    (h : candles.length < 30) :
    analyze_technical_indicators symbol candles =
      { symbol := symbol, signal := "HOLD", confidence := 0, score := none,
        reasoning := "Insufficient data for technical analysis (< 30 periods)",
        indicators := none } ∧
    (analyze_technical_indicators symbol candles).reasoning ≠ "" := by
  refine ⟨by simp [analyze_technical_indicators, h], ?_⟩
  simp only [analyze_technical_indicators, if_pos h]
  decide

/-- Witness for C6 at the empty price history. -/
theorem tech_insufficient_data_holds_witness :
    ([] : List Candle).length < 30 ∧
    (analyze_technical_indicators sampleSymbol []).signal = "HOLD" ∧
    (analyze_technical_indicators sampleSymbol []).confidence = 0 ∧
    (analyze_technical_indicators sampleSymbol []).reasoning ≠ "" := by
  have h := tech_insufficient_data_holds sampleSymbol [] (by simp)
  exact ⟨by simp, by rw [h.1], by rw [h.1], h.2⟩

/-- C10: in paper mode with no broker connection an execution attempt always
succeeds locally: status becomes `executed`, `executed_at` is stamped, and
the execution adapter is called zero times. -/
theorem paper_no_broker_simulated (orderOutcome : Except String Unit) (now : ℤ) (t : TradeRec) :
    execute_trade modePaper false orderOutcome now t =
      ({ t with status := "executed", executed_at := some now }, 0) := by
  simp +decide [execute_trade, modePaper]

/-- C3: confirm succeeds exactly on `pending`; cancel succeeds exactly on
`pending`/`ready`/`advisory`; any other status makes the operation fail with
an invalid-state error naming the current status, leaving the trade
unchanged and making no adapter call. -/
theorem confirm_cancel_state_guard (config : AgentConfigRec) (hasBroker : Bool)
    (orderOutcome : Except String Unit) (now : ℤ) (t : TradeRec) :
    ((confirm_trade config hasBroker orderOutcome now t).error = none ↔ t.status = "pending") ∧
    ((cancel_trade t).error = none ↔
      (t.status = "pending" ∨ t.status = "ready" ∨ t.status = "advisory")) ∧
    (t.status ≠ "pending" →
      confirm_trade config hasBroker orderOutcome now t =
        { trade := t, error := some (confirmErrMsg t.status), orderCalls := 0 }) ∧
    (¬(t.status = "pending" ∨ t.status = "ready" ∨ t.status = "advisory") →
      cancel_trade t = { trade := t, error := some (cancelErrMsg t.status), orderCalls := 0 }) := by
  refine ⟨?_, ?_, fun h => ?_, fun h => ?_⟩
  · unfold confirm_trade
    split_ifs with h
    · simp [h]
    · push_neg at h
      simp [h]
  · unfold cancel_trade
    split_ifs with h
    · simp [h]
    · simp [h]
  · unfold confirm_trade
    rw [if_pos h]
  · unfold cancel_trade
    rw [if_neg h]

/-- Witness for C3 at an executed (terminal) trade. -/
theorem confirm_cancel_state_guard_witness :
    (confirm_trade cfgModerate false (Except.ok ()) 0 tradeExecuted).trade = tradeExecuted ∧
    (confirm_trade cfgModerate false (Except.ok ()) 0 tradeExecuted).error =
      some (confirmErrMsg tradeExecuted.status) ∧
    (cancel_trade tradeExecuted).trade = tradeExecuted ∧
    (cancel_trade tradeExecuted).error = some (cancelErrMsg tradeExecuted.status) := by
  have h := confirm_cancel_state_guard cfgModerate false (Except.ok ()) 0 tradeExecuted
  have hne : tradeExecuted.status ≠ "pending" := by decide
  have hnc : ¬(tradeExecuted.status = "pending" ∨ tradeExecuted.status = "ready" ∨
      tradeExecuted.status = "advisory") := by decide
  exact ⟨by rw [h.2.2.1 hne], by rw [h.2.2.1 hne], by rw [h.2.2.2 hnc], by rw [h.2.2.2 hnc]⟩

/-- Core characterization of a non-skipped symbol decision: the persisted
trade's quantity, mode, initial status and unset execution stamp. -/
lemma decide_symbol_some (config : AgentConfigRec) (portfolio_value : ℚ) (env : CycleEnv)
    (now : ℤ) (symbol : String) (t : TradeRec)
    (h : decide_symbol config portfolio_value env now symbol = some t) :
    1 ≤ t.quantity ∧ t.mode = config.mode ∧
    t.status = (if config.mode = "advisory" then "advisory"
                else if t.total > config.confirm_above_usd then "pending" else "ready") ∧
    t.executed_at = none := by
  unfold decide_symbol at h
  cases hrec : env.recommendation symbol with
  | none => rw [hrec] at h; exact absurd h (by simp)
  | some r =>
    simp only [hrec] at h
    by_cases h1 : r.signal = "HOLD" ∨ r.confidence < 0.3
    · rw [if_pos h1] at h; exact absurd h (by simp)
    · rw [if_neg h1] at h
      cases hq : env.quote symbol with
      | none => rw [hq] at h; exact absurd h (by simp)
      | some cp =>
        simp only [hq] at h
        by_cases h2 : cp ≤ 0
        · rw [if_pos h2] at h; exact absurd h (by simp)
        · rw [if_neg h2] at h
          split_ifs at h
          all_goals (injection h with hinj; subst hinj; simp_all)
          all_goals split_ifs <;> first | rfl | (exfalso; linarith)

/-- C5: every trade a cycle persists has quantity at least 1 (a sizing
result below 1 skips the symbol), and its initial status is `advisory` in
advisory mode, `pending` when the trade value exceeds the confirmation
threshold in paper/live mode, and `ready` otherwise — never a terminal
status. -/
theorem cycle_trade_creation (config : AgentConfigRec) (portfolio_value : ℚ) (env : CycleEnv)
    (now : ℤ) (symbol : String) (t : TradeRec)
    (h : decide_symbol config portfolio_value env now symbol = some t) :
    1 ≤ t.quantity ∧
    t.status = (if config.mode = "advisory" then "advisory"
                else if t.total > config.confirm_above_usd then "pending" else "ready") ∧
    t.status ≠ "executed" ∧ t.status ≠ "failed" ∧ t.status ≠ "cancelled" := by
  obtain ⟨hq, _, hs, _⟩ := decide_symbol_some config portfolio_value env now symbol t h
  refine ⟨hq, hs, ?_, ?_, ?_⟩ <;> rw [hs] <;> split_ifs <;> decide

/-- A BUY recommendation payload used by concrete runs. -/
def recBuy : RecOut := { signal := "BUY", confidence := 0.8, reasoning := "sample" }

/-- A concrete collaborator snapshot: BUY at price 50, no broker account. -/
def envSample : CycleEnv :=
  { recommendation := fun _ => some recBuy, quote := fun _ => some 50,
    accountValue := none, orderOutcome := fun _ => Except.ok () }

/-- The trade `decide_symbol` produces from `envSample` under `cfgModerate`. -/
def tradeSample : TradeRec :=
  { symbol := "AAPL", action := "buy", quantity := 20, price := 50, total := 1000,
    status := "pending", mode := "paper", reasoning := "sample", created_at := 0,
    executed_at := none }

/-- Witness for C5: a concrete decision with quantity 20 and `pending` status. -/
theorem cycle_trade_creation_witness :
    decide_symbol cfgModerate 10000 envSample 0 sampleSymbol = some tradeSample ∧
    1 ≤ tradeSample.quantity ∧ tradeSample.status = "pending" := by
  have heq : decide_symbol cfgModerate 10000 envSample 0 sampleSymbol = some tradeSample := by
    simp +decide [decide_symbol, envSample, recBuy, cfgModerate, sampleSymbol, tradeSample]
    norm_num [pyTrunc, roundTo, halfEvenRound]
  have h := cycle_trade_creation cfgModerate 10000 envSample 0 sampleSymbol tradeSample heq
  refine ⟨heq, h.1, ?_⟩
  rw [h.2.1]
  norm_num [cfgModerate, tradeSample]
  exact fun hx => absurd hx (by decide)

/-- C1: with the agent enabled and a non-empty symbol set, a daily P&L below
the negated loss limit makes the cycle return `killed` with no new trades,
and the outcome does not depend on the per-symbol collaborators at all (the
check runs once, before any analysis). -/
theorem kill_switch_aborts_cycle (config : AgentConfigRec) (watchlist : List String)
    (db : List TradeRec) (hasBroker : Bool) (env : CycleEnv) (now today_start : ℤ)
    (hen : config.enabled = true)
    (hsym : cycleSymbols config watchlist ≠ [])
    (hpnl : daily_pnl db today_start <
      -(config.daily_loss_limit_pct / 100 * resolve_portfolio_value config hasBroker env)) :
    (run_agent_cycle config watchlist db hasBroker env now today_start).status = "killed" ∧
    (run_agent_cycle config watchlist db hasBroker env now today_start).newTrades = [] ∧
    ∀ env2 : CycleEnv, env2.accountValue = env.accountValue →
      run_agent_cycle config watchlist db hasBroker env2 now today_start =
        run_agent_cycle config watchlist db hasBroker env now today_start := by
  have hres : ∀ e : CycleEnv, e.accountValue = env.accountValue →
      resolve_portfolio_value config hasBroker e = resolve_portfolio_value config hasBroker env := by
    intro e he
    unfold resolve_portfolio_value
    rw [he]
  have hkill : ∀ e : CycleEnv, e.accountValue = env.accountValue →
      run_agent_cycle config watchlist db hasBroker e now today_start =
        { status := "killed", symbols_analyzed := 0, decisions := 0, executed := 0,
          newTrades := [] } := by
    intro e he
    have hc : daily_pnl db today_start <
        -(resolve_portfolio_value config hasBroker e * (config.daily_loss_limit_pct / 100)) := by
      rw [hres e he]
      have hcomm : -(resolve_portfolio_value config hasBroker env * (config.daily_loss_limit_pct / 100)) =
          -(config.daily_loss_limit_pct / 100 * resolve_portfolio_value config hasBroker env) := by
        ring
      rw [hcomm]
      exact hpnl
    simp [run_agent_cycle, hen, hsym, hc]
  exact ⟨by rw [hkill env rfl], by rw [hkill env rfl],
    fun env2 he => by rw [hkill env2 he, hkill env rfl]⟩

/-- An executed non-advisory buy of $600 created at the day start. -/
def tradeBigLoss : TradeRec :=
  { symbol := "AAPL", action := "buy", quantity := 1, price := 600, total := 600,
    status := "executed", mode := "paper", reasoning := "", created_at := 0,
    executed_at := some 0 }

/-- Witness for C1: a $600 realized loss against the $500 moderate limit. -/
theorem kill_switch_aborts_cycle_witness :
    daily_pnl [tradeBigLoss] 0 = -600 ∧
    (run_agent_cycle cfgModerate [sampleSymbol] [tradeBigLoss] false envSample 0 0).status = "killed" ∧
    (run_agent_cycle cfgModerate [sampleSymbol] [tradeBigLoss] false envSample 0 0).newTrades = [] := by
  have hpnl0 : daily_pnl [tradeBigLoss] 0 = -600 := by
    simp +decide [daily_pnl, tradeBigLoss, List.filter]
  have hsym : cycleSymbols cfgModerate [sampleSymbol] ≠ [] := by
    simp +decide [cycleSymbols, cfgModerate]
  have h := kill_switch_aborts_cycle cfgModerate [sampleSymbol] [tradeBigLoss] false envSample 0 0
    rfl hsym
    (by rw [hpnl0]; norm_num [cfgModerate, resolve_portfolio_value, envSample])
  exact ⟨hpnl0, h.1, h.2.1⟩

/-- Helper: outside advisory mode an execution attempt always lands on a
terminal status with at most one adapter order call. -/
lemma execute_trade_terminal (mode : String) (hasBroker : Bool) (oo : Except String Unit)
    (now : ℤ) (t : TradeRec) (h : mode ≠ "advisory") :
    ((execute_trade mode hasBroker oo now t).1.status = "executed" ∨
     (execute_trade mode hasBroker oo now t).1.status = "failed") ∧
    (execute_trade mode hasBroker oo now t).2 ≤ 1 := by
  unfold execute_trade
  rw [if_neg h]
  split_ifs with h1 h2 <;>
    first
      | exact ⟨Or.inl rfl, by norm_num⟩
      | exact ⟨Or.inr rfl, by norm_num⟩
      | (cases oo with
          | ok u => exact ⟨Or.inl rfl, by norm_num⟩
          | error e => exact ⟨Or.inr rfl, by norm_num⟩)

/-- Helper: persisting and executing a decision list whose `ready` entries
can only arise outside advisory mode leaves no trade in `ready`. -/
lemma persist_execute_no_ready (config : AgentConfigRec) (hasBroker : Bool) (env : CycleEnv)
    (now : ℤ) (ds : List TradeRec)
    (hds : ∀ d ∈ ds, d.status = "ready" → config.mode ≠ "advisory") :
    ∀ t ∈ (persist_execute config hasBroker env now ds).1, t.status ≠ "ready" := by
  induction ds with
  | nil => intro t ht; simp [persist_execute] at ht
  | cons d ds ih =>
    intro t ht
    simp only [persist_execute] at ht
    by_cases hrd : d.status = "ready"
    · rw [if_pos hrd] at ht
      rcases List.mem_cons.mp ht with hh | hmem
      · subst hh
        have hmode := hds d (List.mem_cons_self d ds) hrd
        rcases (execute_trade_terminal config.mode hasBroker (env.orderOutcome d.symbol) now d hmode).1
          with hx | hx <;> rw [hx] <;> decide
      · exact ih (fun x hx hrx => hds x (List.mem_cons_of_mem d hx) hrx) t hmem
    · rw [if_neg hrd] at ht
      rcases List.mem_cons.mp ht with hh | hmem
      · subst hh; exact hrd
      · exact ih (fun x hx hrx => hds x (List.mem_cons_of_mem d hx) hrx) t hmem

/-- C4 (amended): outside advisory mode every execution attempt resolves the
trade to `executed` or `failed` with at most one (never retried) adapter
call; and no cycle ever leaves a persisted trade in `ready` (its `ready`
decisions only arise in paper/live mode and are executed at once). The
advisory-mode confirm path is the exception the counterexample exhibits. -/
theorem execution_attempt_resolves :
    (∀ (mode : String) (hasBroker : Bool) (oo : Except String Unit) (now : ℤ) (t : TradeRec),
      mode ≠ "advisory" →
      (((execute_trade mode hasBroker oo now t).1.status = "executed" ∨
        (execute_trade mode hasBroker oo now t).1.status = "failed") ∧
       (execute_trade mode hasBroker oo now t).2 ≤ 1)) ∧
    (∀ (config : AgentConfigRec) (watchlist : List String) (db : List TradeRec)
       (hasBroker : Bool) (env : CycleEnv) (now today_start : ℤ) (t : TradeRec),
      t ∈ (run_agent_cycle config watchlist db hasBroker env now today_start).newTrades →
      t.status ≠ "ready") := by
  constructor
  · intro mode hasBroker oo now t h
    exact execute_trade_terminal mode hasBroker oo now t h
  · intro config watchlist db hasBroker env now today_start t ht
    simp only [run_agent_cycle] at ht
    split_ifs at ht with h1 h2 h3
    · simp at ht
    · simp at ht
    · refine persist_execute_no_ready config hasBroker env now _ ?_ t ht
      intro d hd hrd
      rcases List.mem_filterMap.mp hd with ⟨s, hsmem, hds⟩
      obtain ⟨hq1, hm1, hstat, he1⟩ := decide_symbol_some config
        (resolve_portfolio_value config hasBroker env) env now s d hds
      intro hadv
      rw [hadv] at hstat
      simp at hstat
      rw [hstat] at hrd
      exact absurd hrd (by decide)
    · simp at ht

/-- Witness for C4 (amended) at a concrete paper-mode execution. -/
theorem execution_attempt_resolves_witness :
    modePaper ≠ "advisory" ∧
    ((execute_trade modePaper false (Except.ok ()) 0 tradeExecuted).1.status = "executed" ∨
     (execute_trade modePaper false (Except.ok ()) 0 tradeExecuted).1.status = "failed") := by
  have h := execution_attempt_resolves.1 modePaper false (Except.ok ()) 0 tradeExecuted (by decide)
  exact ⟨by decide, h.1⟩

/-- An advisory configuration (for the C4 counterexample). -/
def cfgAdvisory : AgentConfigRec :=
  { enabled := true, mode := "advisory", max_trade_pct := 10, max_position_pct := 20,
    daily_loss_limit_pct := 5, confirm_above_usd := 500, symbol_whitelist := [] }

/-- A pending paper trade awaiting confirmation. -/
def tradePending : TradeRec :=
  { symbol := "AAPL", action := "buy", quantity := 1, price := 600, total := 600,
    status := "pending", mode := "paper", reasoning := "", created_at := 0,
    executed_at := none }

/-- Counterexample to C4 as stated: confirming a pending trade while the
configured mode is `advisory` advances it to `ready` and the execute step is
a no-op, leaving the trade in a non-terminal state. -/
theorem confirm_advisory_nonterminal_counterexample :
    (confirm_trade cfgAdvisory true (Except.ok ()) 0 tradePending).error = none ∧
    (confirm_trade cfgAdvisory true (Except.ok ()) 0 tradePending).trade.status = "ready" ∧
    (confirm_trade cfgAdvisory true (Except.ok ()) 0 tradePending).trade.status ≠ "executed" ∧
    (confirm_trade cfgAdvisory true (Except.ok ()) 0 tradePending).trade.status ≠ "failed" := by
  refine ⟨?_, ?_, ?_, ?_⟩ <;> simp +decide [confirm_trade, execute_trade, cfgAdvisory, tradePending]

/-- A BUY proposal whose value exceeds a zero portfolio value. -/
def proposalZeroPortfolio : TradeProposal :=
  { symbol := "AAPL", signal := "BUY", quantity := 1, entry_price := 10,
    portfolio_value := 0, confidence := 0.9, max_position_pct := 20, min_confidence := 0.6 }

/-- Counterexample to C2 as stated: with portfolio_value = 0 the trade value
(10) exceeds the portfolio value, yet the source skips the portfolio-limit
check (guarded by portfolio_value > 0) and approves the trade. -/
theorem validate_zero_portfolio_counterexample :
    proposalZeroPortfolio.quantity * proposalZeroPortfolio.entry_price >
      proposalZeroPortfolio.portfolio_value ∧
    proposalZeroPortfolio.signal ≠ "HOLD" ∧
    (validate_trade proposalZeroPortfolio).approved = true ∧
    (validate_trade proposalZeroPortfolio).status = "APPROVED" := by
  refine ⟨by norm_num [proposalZeroPortfolio], by decide, ?_, ?_⟩ <;>
    norm_num [validate_trade, proposalZeroPortfolio, ValidateResult.approved,
      ValidateResult.status] <;> decide

/-- C2 (amended): HOLD proposals are never approved (NO_TRADE); otherwise a
violation — position percentage above the cap, or, only when
portfolio_value > 0, trade value above portfolio value — forces REJECTED
regardless of warnings; with no violation, low confidence gives
APPROVED_WITH_WARNINGS and otherwise APPROVED (both approved). When
portfolio_value ≤ 0 the position percentage is 0 and the portfolio-limit
check is skipped. -/
theorem validate_trade_amended (p : TradeProposal) :
    (p.signal = "HOLD" →
      validate_trade p = ValidateResult.noTrade ∧
      (validate_trade p).approved = false ∧ (validate_trade p).status = "NO_TRADE") ∧
    (p.signal ≠ "HOLD" →
      (((if p.portfolio_value > 0 then p.quantity * p.entry_price / p.portfolio_value * 100 else 0) >
          p.max_position_pct ∨
        (p.portfolio_value > 0 ∧ p.quantity * p.entry_price > p.portfolio_value)) →
        (validate_trade p).approved = false ∧ (validate_trade p).status = "REJECTED") ∧
      (¬((if p.portfolio_value > 0 then p.quantity * p.entry_price / p.portfolio_value * 100 else 0) >
          p.max_position_pct ∨
        (p.portfolio_value > 0 ∧ p.quantity * p.entry_price > p.portfolio_value)) →
        (p.confidence < p.min_confidence →
          (validate_trade p).approved = true ∧
          (validate_trade p).status = "APPROVED_WITH_WARNINGS") ∧
        (¬p.confidence < p.min_confidence →
          (validate_trade p).approved = true ∧ (validate_trade p).status = "APPROVED"))) := by
  constructor
  · intro hh
    simp [validate_trade, hh, ValidateResult.approved, ValidateResult.status]
  · intro hh
    by_cases hA : (if p.portfolio_value > 0 then p.quantity * p.entry_price / p.portfolio_value * 100 else 0) >
        p.max_position_pct
    · refine ⟨fun _ => ?_, fun hcon => absurd (Or.inl hA) hcon⟩
      simp [validate_trade, hh, hA, ValidateResult.approved, ValidateResult.status]
    · by_cases hB : p.portfolio_value > 0 ∧ p.quantity * p.entry_price > p.portfolio_value
      · refine ⟨fun _ => ?_, fun hcon => absurd (Or.inr hB) hcon⟩
        simp [validate_trade, hh, hA, hB, ValidateResult.approved, ValidateResult.status]
      · refine ⟨fun hv => absurd hv (by simp [hA, hB]), fun _ => ⟨fun hC => ?_, fun hC => ?_⟩⟩ <;>
          simp [validate_trade, hh, hA, hB, hC, ValidateResult.approved, ValidateResult.status]

/-- A BUY proposal breaching the position cap (30% against a 20% cap). -/
def proposalTooLarge : TradeProposal :=
  { symbol := "AAPL", signal := "BUY", quantity := 30, entry_price := 1,
    portfolio_value := 100, confidence := 0.9, max_position_pct := 20, min_confidence := 0.6 }

/-- Witness for C2 (amended): the oversized proposal is rejected. -/
theorem validate_trade_amended_witness :
    (validate_trade proposalTooLarge).approved = false ∧
    (validate_trade proposalTooLarge).status = "REJECTED" := by
  have h := (validate_trade_amended proposalTooLarge).2 (by decide)
  exact h.1 (by norm_num [proposalTooLarge])

/-- Counterexample to C9 as stated: a negative risk fraction (−2% of a 1000
portfolio, entry 10, stop 7) yields `int(−20/3) = −6`: a negative share
count, and not the floor (−7) of the exact quotient — Python `int` truncates
toward zero, rounding this negative quotient up. -/
theorem position_size_negative_counterexample :
    calculate_position_size 1000 (-0.02) 10 7 = SizeResult.sized
      { recommended_shares := -6, position_value := -60, position_pct := -6,
        risk_amount := -20, risk_per_share := 3, entry_price := 10, stop_loss := 7 } ∧
    (calculate_position_size 1000 (-0.02) 10 7).recommended_shares < 0 ∧
    ⌊(1000 * (-0.02) : ℚ) / |(10 : ℚ) - 7|⌋ = -7 ∧
    (calculate_position_size 1000 (-0.02) 10 7).recommended_shares ≠ -7 := by
  have heval : calculate_position_size 1000 (-0.02) 10 7 = SizeResult.sized
      { recommended_shares := -6, position_value := -60, position_pct := -6,
        risk_amount := -20, risk_per_share := 3, entry_price := 10, stop_loss := 7 } := by
    norm_num [calculate_position_size, pyTrunc, roundTo, halfEvenRound, Int.ceil_neg,
      -Int.self_sub_floor]
  refine ⟨heval, ?_, by norm_num, ?_⟩ <;>
    rw [heval] <;> norm_num [SizeResult.recommended_shares]

/-- C9 (amended): position sizing returns the explicit error result exactly
when portfolio_value ≤ 0 or entry_price ≤ 0; for valid inputs with a
non-negative risk fraction the share count is the floor of
risk_amount / risk_per_unit (0 when the stop coincides with the entry),
hence a non-negative integer that is never rounded up above the exact
quotient. -/
theorem position_size_amended (pv rp entry stop : ℚ) :
    ((∃ m, calculate_position_size pv rp entry stop = SizeResult.sizeError m) ↔
      (pv ≤ 0 ∨ entry ≤ 0)) ∧
    (0 < pv → 0 < entry → 0 ≤ rp →
      (calculate_position_size pv rp entry stop).recommended_shares =
        ⌊pv * rp / (if stop > 0 then |entry - stop| else entry * 0.05)⌋ ∧
      0 ≤ (calculate_position_size pv rp entry stop).recommended_shares ∧
      ((calculate_position_size pv rp entry stop).recommended_shares : ℚ) ≤
        pv * rp / (if stop > 0 then |entry - stop| else entry * 0.05)) := by
  constructor
  · constructor
    · intro ⟨m, hm⟩
      by_contra hcon
      push_neg at hcon
      have hno : ¬(pv ≤ 0 ∨ entry ≤ 0) := by
        push_neg
        exact hcon
      simp only [calculate_position_size, if_neg hno] at hm
      exact absurd hm (by simp)
    · intro hio
      refine ⟨invalidSizingMsg, ?_⟩
      simp only [calculate_position_size, if_pos hio]
  · intro hpv hentry hrp
    have hno : ¬(pv ≤ 0 ∨ entry ≤ 0) := by
      push_neg
      exact ⟨hpv, hentry⟩
    have hra : 0 ≤ pv * rp := mul_nonneg hpv.le hrp
    simp only [calculate_position_size, if_neg hno, SizeResult.recommended_shares]
    by_cases hstop : stop > 0
    · simp only [if_pos hstop]
      by_cases hz : |entry - stop| > 0
      · have hguard : ¬(stop > 0 ∧ ¬|entry - stop| > 0) := by
          intro hcon
          exact hcon.2 hz
        rw [if_neg hguard]
        have hq : 0 ≤ pv * rp / |entry - stop| := div_nonneg hra (abs_nonneg _)
        rw [pyTrunc, if_neg (not_lt.mpr hq)]
        exact ⟨rfl, Int.floor_nonneg.mpr hq, Int.floor_le _⟩
      · have hzero : |entry - stop| = 0 := le_antisymm (not_lt.mp hz) (abs_nonneg _)
        rw [if_pos ⟨hstop, hz⟩, hzero]
        norm_num
    · simp only [if_neg hstop]
      have hps : (0 : ℚ) < entry * 0.05 := by positivity
      have hguard : ¬(stop > 0 ∧ ¬entry * 0.05 > 0) := by
        intro hcon
        exact hstop hcon.1
      rw [if_neg hguard]
      have hq : 0 ≤ pv * rp / (entry * 0.05) := div_nonneg hra hps.le
      rw [pyTrunc, if_neg (not_lt.mpr hq)]
      exact ⟨rfl, Int.floor_nonneg.mpr hq, Int.floor_le _⟩

/-- Witness for C9 (amended): 2% of a 10000 portfolio, entry 100, stop 95
gives exactly 40 shares. -/
theorem position_size_amended_witness :
    (calculate_position_size 10000 0.02 100 95).recommended_shares = 40 ∧
    0 ≤ (calculate_position_size 10000 0.02 100 95).recommended_shares := by
  have h := (position_size_amended 10000 0.02 100 95).2 (by norm_num) (by norm_num) (by norm_num)
  refine ⟨?_, h.2.1⟩
  rw [h.1]
  norm_num

/-- The seven categorical signals of the combiner's scale. -/
def sevenPointSignals : List String :=
  ["STRONG_BUY", "BUY", "WEAK_BUY", "HOLD", "WEAK_SELL", "SELL", "STRONG_SELL"]

/-- C8: the combiner computes the confidence-weighted score and confidence
(weights 0.6/0.4) over the 7-point scale, maps the exact weighted score
through the stated thresholds, classifies agreement by |tech − fund| score
distance, and is deterministic in exactly the signal/confidence fields it
reads (the returned score/confidence fields are the exact sums rounded to
two decimals). -/
theorem combine_signals_weighted (technical : TechResult) (fundamental : FundResult) :
    (combine_signals technical fundamental).final_signal =
      (if signal_scores technical.signal * technical.confidence * 0.6 +
          signal_scores fundamental.signal * fundamental.confidence * 0.4 > 1.5 then "STRONG_BUY"
       else if signal_scores technical.signal * technical.confidence * 0.6 +
          signal_scores fundamental.signal * fundamental.confidence * 0.4 > 0.5 then "BUY"
       else if signal_scores technical.signal * technical.confidence * 0.6 +
          signal_scores fundamental.signal * fundamental.confidence * 0.4 > 0.2 then "WEAK_BUY"
       else if signal_scores technical.signal * technical.confidence * 0.6 +
          signal_scores fundamental.signal * fundamental.confidence * 0.4 < -1.5 then "STRONG_SELL"
       else if signal_scores technical.signal * technical.confidence * 0.6 +
          signal_scores fundamental.signal * fundamental.confidence * 0.4 < -0.5 then "SELL"
       else if signal_scores technical.signal * technical.confidence * 0.6 +
          signal_scores fundamental.signal * fundamental.confidence * 0.4 < -0.2 then "WEAK_SELL"
       else "HOLD") ∧
    (combine_signals technical fundamental).final_confidence =
      roundTo 2 (technical.confidence * 0.6 + fundamental.confidence * 0.4) ∧
    (combine_signals technical fundamental).combined_score =
      roundTo 2 (signal_scores technical.signal * technical.confidence * 0.6 +
        signal_scores fundamental.signal * fundamental.confidence * 0.4) ∧
    (combine_signals technical fundamental).technical_weight = 0.6 ∧
    (combine_signals technical fundamental).fundamental_weight = 0.4 ∧
    (combine_signals technical fundamental).agent_agreement =
      (if |signal_scores technical.signal - signal_scores fundamental.signal| < 0.5 then "HIGH"
       else if |signal_scores technical.signal - signal_scores fundamental.signal| < 1.5
         then "MODERATE"
       else "LOW") ∧
    sevenPointSignals.map signal_scores = [2, 1, 0.5, 0, -0.5, -1, -2] ∧
    (∀ (t2 : TechResult) (f2 : FundResult),
      t2.signal = technical.signal → t2.confidence = technical.confidence →
      f2.signal = fundamental.signal → f2.confidence = fundamental.confidence →
      combine_signals t2 f2 = combine_signals technical fundamental) := by
  refine ⟨rfl, rfl, rfl, rfl, rfl, rfl, ?_, ?_⟩
  · simp +decide [sevenPointSignals, signal_scores]
  · intro t2 f2 h1 h2 h3 h4
    unfold combine_signals
    rw [h1, h2, h3, h4]

/-- A technical BUY at full confidence (for the C8 witness). -/
def techBuySignal : TechResult :=
  { symbol := "AAPL", signal := "BUY", confidence := 1, score := some 1,
    reasoning := "r", indicators := none }

/-- A neutral sentiment result at zero confidence (for the C8 witness). -/
def fundHoldSignal : FundResult := { signal := "HOLD", confidence := 0 }

/-- Witness for C8: BUY (score 1) at confidence 1 against HOLD at 0 gives a
weighted score of 0.6 and final signal BUY. -/
theorem combine_signals_weighted_witness :
    (combine_signals techBuySignal fundHoldSignal).final_signal = "BUY" ∧
    (combine_signals techBuySignal fundHoldSignal).final_confidence = 0.6 := by
  have h := combine_signals_weighted techBuySignal fundHoldSignal
  constructor
  · rw [h.1]
    simp +decide [techBuySignal, fundHoldSignal, signal_scores]
    norm_num
  · rw [h.2.1]
    simp +decide [techBuySignal, fundHoldSignal]
    norm_num [roundTo, halfEvenRound, -Int.self_sub_floor]

/-- Helper: the moving-average term is a half-integer. -/
lemma maTerm_halfint (prices : List ℚ) : ∃ z : ℤ, maTerm prices = z / 2 := by
  unfold maTerm
  cases lastMean 20 prices <;> cases lastMean 50 prices <;> dsimp only <;>
    first
      | (split_ifs <;>
          first
            | (refine ⟨2, ?_⟩; norm_num; done)
            | (refine ⟨-2, ?_⟩; norm_num; done)
            | (refine ⟨0, ?_⟩; norm_num; done))
      | (refine ⟨0, ?_⟩; norm_num; done)

/-- Helper: the RSI term is a half-integer. -/
lemma rsiTerm_halfint (prices : List ℚ) : ∃ z : ℤ, rsiTerm prices = z / 2 := by
  unfold rsiTerm
  cases rsiLast prices <;> dsimp only <;>
    first
      | (split_ifs <;>
          first
            | (refine ⟨3, ?_⟩; norm_num; done)
            | (refine ⟨-3, ?_⟩; norm_num; done)
            | (refine ⟨0, ?_⟩; norm_num; done))
      | (refine ⟨0, ?_⟩; norm_num; done)

/-- Helper: the MACD term is a half-integer. -/
lemma macdTerm_halfint (prices : List ℚ) : ∃ z : ℤ, macdTerm prices = z / 2 := by
  unfold macdTerm
  split_ifs <;>
    first
      | (refine ⟨2, ?_⟩; norm_num; done)
      | (refine ⟨-2, ?_⟩; norm_num; done)
      | (refine ⟨0, ?_⟩; norm_num; done)

/-- Helper: the Bollinger term is a half-integer. -/
lemma bbTerm_halfint (prices : List ℚ) : ∃ z : ℤ, bbTerm prices = z / 2 := by
  unfold bbTerm
  cases hb : bollLast prices with
  | none => exact ⟨0, by norm_num⟩
  | some mv =>
    obtain ⟨m, v⟩ := mv
    dsimp only
    split_ifs <;>
      first
        | (refine ⟨2, ?_⟩; norm_num; done)
        | (refine ⟨-2, ?_⟩; norm_num; done)
        | (refine ⟨0, ?_⟩; norm_num; done)

/-- Helper: the volume term is a half-integer. -/
lemma volTerm_halfint (volumes : List ℚ) : ∃ z : ℤ, volTerm volumes = z / 2 := by
  simp only [volTerm]
  split_ifs <;>
    first
      | (refine ⟨1, ?_⟩; norm_num; done)
      | (refine ⟨0, ?_⟩; norm_num; done)

/-- Helper: the accumulated technical score is a half-integer (its five
contributions are drawn from {±1, ±1.5, ±0.5, 0}). -/
lemma techScore_halfint (candles : List Candle) : ∃ z : ℤ, techScore candles = z / 2 := by
  obtain ⟨a, ha⟩ := maTerm_halfint ((sortByDate candles).map (fun c => c.close))
  obtain ⟨b, hb⟩ := rsiTerm_halfint ((sortByDate candles).map (fun c => c.close))
  obtain ⟨c, hc⟩ := macdTerm_halfint ((sortByDate candles).map (fun c => c.close))
  obtain ⟨d, hd⟩ := bbTerm_halfint ((sortByDate candles).map (fun c => c.close))
  obtain ⟨e, he⟩ := volTerm_halfint ((sortByDate candles).map (fun c => c.volume))
  refine ⟨a + b + c + d + e, ?_⟩
  simp only [techScore]
  rw [ha, hb, hc, hd, he]
  push_cast
  ring

/-- Helper: `halfEvenRound` fixes integers. -/
lemma halfEvenRound_intCast (n : ℤ) : halfEvenRound (n : ℚ) = n := by
  simp only [halfEvenRound]
  rw [Int.floor_intCast]
  norm_num

/-- Helper: two-decimal rounding fixes integer multiples of one tenth. -/
lemma roundTo_two_tenth (n : ℤ) : roundTo 2 ((n : ℚ) / 10) = (n : ℚ) / 10 := by
  have h : ((n : ℚ) / 10) * 10 ^ 2 = ((10 * n : ℤ) : ℚ) := by push_cast; ring
  simp only [roundTo]
  rw [h, halfEvenRound_intCast]
  push_cast
  ring

/-- Helper: two-decimal rounding fixes the confidence `min(|z/2|/5, 1)` of a
half-integer score. -/
lemma roundTo_conf_fix (z : ℤ) :
    roundTo 2 (min (|(z : ℚ) / 2| / 5) 1) = min (|(z : ℚ) / 2| / 5) 1 := by
  have habs : |(z : ℚ) / 2| / 5 = ((|z| : ℤ) : ℚ) / 10 := by
    have h2 : |(z : ℚ) / 2| = |(z : ℚ)| / 2 := by
      rw [abs_div]
      norm_num
    rw [h2, Int.cast_abs]
    ring
  rcases min_cases (|(z : ℚ) / 2| / 5) (1 : ℚ) with ⟨hm, _⟩ | ⟨hm, _⟩
  · rw [hm, habs, roundTo_two_tenth]
  · rw [hm]
    have h1 : (1 : ℚ) = ((10 : ℤ) : ℚ) / 10 := by norm_num
    rw [h1, roundTo_two_tenth]

/-- Helper: on 30 or more bars the analyzer's signal and confidence come
from `techSignalOf` applied to the accumulated score. -/
lemma analyze_long (symbol : String) (candles : List Candle) (h : ¬candles.length < 30) :
    (analyze_technical_indicators symbol candles).signal =
      (techSignalOf (techScore candles)).1 ∧
    (analyze_technical_indicators symbol candles).confidence =
      roundTo 2 (techSignalOf (techScore candles)).2 := by
  simp [analyze_technical_indicators, h]

/-- C7 (amended): on at least 30 bars the score maps to the signal by the
stated thresholds, and the returned confidence is min(|score|/5, 1) for the
four non-HOLD outcomes but 0.5 (not min(|score|/5, 1)) in the HOLD case. -/
theorem tech_signal_threshold_mapping (symbol : String) (candles : List Candle)
    (h : 30 ≤ candles.length) :
    (techScore candles > 2 →
      (analyze_technical_indicators symbol candles).signal = "STRONG_BUY" ∧
      (analyze_technical_indicators symbol candles).confidence =
        min (|techScore candles| / 5) 1) ∧
    (techScore candles ≤ 2 → techScore candles > 0.5 →
      (analyze_technical_indicators symbol candles).signal = "BUY" ∧
      (analyze_technical_indicators symbol candles).confidence =
        min (|techScore candles| / 5) 1) ∧
    (techScore candles < -2 →
      (analyze_technical_indicators symbol candles).signal = "STRONG_SELL" ∧
      (analyze_technical_indicators symbol candles).confidence =
        min (|techScore candles| / 5) 1) ∧
    (-2 ≤ techScore candles → techScore candles < -0.5 →
      (analyze_technical_indicators symbol candles).signal = "SELL" ∧
      (analyze_technical_indicators symbol candles).confidence =
        min (|techScore candles| / 5) 1) ∧
    (-0.5 ≤ techScore candles → techScore candles ≤ 0.5 →
      (analyze_technical_indicators symbol candles).signal = "HOLD" ∧
      (analyze_technical_indicators symbol candles).confidence = 0.5) := by
  have hn : ¬candles.length < 30 := by omega
  obtain ⟨hsig, hconf⟩ := analyze_long symbol candles hn
  obtain ⟨z, hz⟩ := techScore_halfint candles
  have hfix : roundTo 2 (min (|techScore candles| / 5) 1) = min (|techScore candles| / 5) 1 := by
    rw [hz]
    exact roundTo_conf_fix z
  have hhalf : roundTo 2 (0.5 : ℚ) = 0.5 := by
    have h5 : (0.5 : ℚ) = ((5 : ℤ) : ℚ) / 10 := by norm_num
    rw [h5, roundTo_two_tenth]
  refine ⟨fun h1 => ?_, fun h1 h2 => ?_, fun h1 => ?_, fun h1 h2 => ?_, fun h1 h2 => ?_⟩
  · constructor
    · rw [hsig]
      unfold techSignalOf
      rw [if_pos h1]
    · rw [hconf]
      unfold techSignalOf
      rw [if_pos h1]
      exact hfix
  · constructor
    · rw [hsig]
      unfold techSignalOf
      rw [if_neg (by linarith), if_pos h2]
    · rw [hconf]
      unfold techSignalOf
      rw [if_neg (by linarith), if_pos h2]
      exact hfix
  · constructor
    · rw [hsig]
      unfold techSignalOf
      rw [if_neg (by linarith), if_neg (by linarith), if_pos h1]
    · rw [hconf]
      unfold techSignalOf
      rw [if_neg (by linarith), if_neg (by linarith), if_pos h1]
      exact hfix
  · constructor
    · rw [hsig]
      unfold techSignalOf
      rw [if_neg (by linarith), if_neg (by linarith), if_neg (by linarith), if_pos h2]
    · rw [hconf]
      unfold techSignalOf
      rw [if_neg (by linarith), if_neg (by linarith), if_neg (by linarith), if_pos h2]
      exact hfix
  · constructor
    · rw [hsig]
      unfold techSignalOf
      rw [if_neg (by linarith), if_neg (by linarith), if_neg (by linarith), if_neg (by linarith)]
    · rw [hconf]
      unfold techSignalOf
      rw [if_neg (by linarith), if_neg (by linarith), if_neg (by linarith), if_neg (by linarith)]
      exact hhalf

/-- A flat bar: constant price 100 and volume 100. -/
def flatBar : Candle := { date := 0, close := 100, volume := 100 }

/-- Thirty identical flat bars: every indicator is neutral. -/
def flatCandles : List Candle := List.replicate 30 flatBar

set_option maxHeartbeats 1000000 in
/-- Helper: sorting the flat history is the identity. -/
lemma sort_flat : sortByDate flatCandles = flatCandles := by
  norm_num [flatCandles, flatBar, sortByDate, insertByDate, List.replicate]

set_option maxHeartbeats 1000000 in
/-- Helper: the close series of the flat history. -/
lemma prices_flat :
    (sortByDate flatCandles).map (fun c => c.close) = List.replicate 30 (100 : ℚ) := by
  rw [sort_flat]
  norm_num [flatCandles, flatBar, List.replicate]

set_option maxHeartbeats 1000000 in
/-- Helper: the volume series of the flat history. -/
lemma volumes_flat :
    (sortByDate flatCandles).map (fun c => c.volume) = List.replicate 30 (100 : ℚ) := by
  rw [sort_flat]
  norm_num [flatCandles, flatBar, List.replicate]

set_option maxHeartbeats 1000000 in
/-- Helper: no moving-average contribution on the flat series (SMA50 unfilled). -/
lemma maTerm_flat : maTerm (List.replicate 30 (100 : ℚ)) = 0 := by
  norm_num [maTerm, lastMean, lastWindow, List.replicate]

set_option maxHeartbeats 1000000 in
/-- Helper: the flat series has zero average gain and loss, so the RSI is
the `0/0` NaN and contributes nothing. -/
lemma rsiTerm_flat : rsiTerm (List.replicate 30 (100 : ℚ)) = 0 := by
  norm_num [rsiTerm, rsiLast, gains, losses, deltas, lastMean, lastWindow, List.replicate,
    List.zipWith, List.tail]

set_option maxHeartbeats 4000000 in
/-- Helper: both MACD lines vanish on the flat series. -/
lemma macdTerm_flat : macdTerm (List.replicate 30 (100 : ℚ)) = 0 := by
  norm_num [macdTerm, macdLast, macdSignalLast, macdSeries, ewmSeries, ewmLast, ewmAlpha,
    lastVal, List.replicate, List.scanl, List.zipWith, List.foldl]

set_option maxHeartbeats 1000000 in
/-- Helper: the flat series sits on its zero-width Bollinger band. -/
lemma bbTerm_flat : bbTerm (List.replicate 30 (100 : ℚ)) = 0 := by
  norm_num [bbTerm, bollLast, sampleVar, lastMean, lastWindow, lastVal, List.replicate]

set_option maxHeartbeats 1000000 in
/-- Helper: constant volume is never a breakout. -/
lemma volTerm_flat : volTerm (List.replicate 30 (100 : ℚ)) = 0 := by
  norm_num [volTerm, lastWindow, lastVal, List.replicate]

/-- Helper: the flat history accumulates a technical score of exactly 0. -/
lemma techScore_flat : techScore flatCandles = 0 := by
  simp only [techScore]
  rw [prices_flat, volumes_flat, maTerm_flat, rsiTerm_flat, macdTerm_flat, bbTerm_flat,
    volTerm_flat]
  norm_num

/-- Counterexample to C7 as stated: on 30 flat bars the score is 0 and the
signal is HOLD, but the returned confidence is 0.5, not
min(|0|/5, 1) = 0 — the HOLD branch of the source hard-codes 0.5. -/
theorem tech_hold_confidence_counterexample :
    flatCandles.length = 30 ∧
    (analyze_technical_indicators sampleSymbol flatCandles).signal = "HOLD" ∧
    (analyze_technical_indicators sampleSymbol flatCandles).score = some 0 ∧
    (analyze_technical_indicators sampleSymbol flatCandles).confidence = 0.5 ∧
    (0.5 : ℚ) ≠ min (|(0 : ℚ)| / 5) 1 := by
  have hn : ¬flatCandles.length < 30 := by norm_num [flatCandles]
  have hsig : (analyze_technical_indicators sampleSymbol flatCandles).signal =
      (techSignalOf (techScore flatCandles)).1 := by
    simp [analyze_technical_indicators, hn]
  have hcf : (analyze_technical_indicators sampleSymbol flatCandles).confidence =
      roundTo 2 (techSignalOf (techScore flatCandles)).2 := by
    simp [analyze_technical_indicators, hn]
  have hsc : (analyze_technical_indicators sampleSymbol flatCandles).score =
      some (roundTo 2 (techScore flatCandles)) := by
    simp [analyze_technical_indicators, hn]
  refine ⟨by norm_num [flatCandles], ?_, ?_, ?_, by norm_num⟩
  · rw [hsig, techScore_flat]
    norm_num [techSignalOf]
  · rw [hsc, techScore_flat]
    norm_num [roundTo, halfEvenRound, -Int.self_sub_floor]
  · rw [hcf, techScore_flat]
    have h0 : techSignalOf 0 = ("HOLD", 0.5) := by norm_num [techSignalOf]
    rw [h0]
    norm_num [roundTo, halfEvenRound, -Int.self_sub_floor]

/-- Witness for C7 (amended) at the flat 30-bar history: score 0 lands in
the HOLD band with confidence 0.5. -/
theorem tech_signal_threshold_mapping_witness :
    30 ≤ flatCandles.length ∧
    (analyze_technical_indicators sampleSymbol flatCandles).signal = "HOLD" ∧
    (analyze_technical_indicators sampleSymbol flatCandles).confidence = 0.5 := by
  have hlen : 30 ≤ flatCandles.length := by norm_num [flatCandles]
  have h := (tech_signal_threshold_mapping sampleSymbol flatCandles hlen).2.2.2.2
    (by rw [techScore_flat]; norm_num) (by rw [techScore_flat]; norm_num)
  exact ⟨hlen, h.1, h.2⟩
